import Mathlib

/-!
Shallow embedding of `src/droppable.ts` (the `Droppable` class): a browser
widget that turns a host element into a file-drop target.  DOM elements are
modelled as records of class list, attributes and registered listeners;
the Noel notification channel is modelled by a log of emitted payloads
(`emittedDrops`), whose last entry is the replay-buffer content.

`Function.prototype.bind` returns a fresh function object, distinct from the
original: the model keeps that distinction in `HandlerRef` (`bound h ≠
original h`), because `addEventListener`/`removeEventListener` match
listeners by identity.
-/

namespace DroppableSpec

/-- Opaque file handle; the component never inspects it. -/
structure File where
  id : Nat
  deriving DecidableEq, Repr

/-- The five event-listener methods of the class. -/
inductive Handler where
  | dragOver
  | dragLeave
  | drop
  | click
  | change
  deriving DecidableEq, Repr

/-- A listener value as seen by the DOM: either one of the class methods
itself, or the fresh function object produced by `method.bind(this)`.
`bound h` and `original h` are distinct values, as in JavaScript. -/
inductive HandlerRef where
  | original (h : Handler)
  | bound (h : Handler)
  deriving DecidableEq, Repr

/-- Which method a listener reference invokes (`bind` only fixes `this`). -/
def handlerOf : HandlerRef → Handler
  | .original h => h
  | .bound h => h

/-- A DOM element: CSS classes, attributes, registered event listeners. -/
structure DomElement where
  classList : List String
  attributes : List (String × String)
  listeners : List (String × HandlerRef)
  deriving DecidableEq, Repr

/-- `element.classList.add c` (no duplicates). -/
def classListAdd (el : DomElement) (c : String) : DomElement :=
  if c ∈ el.classList then el else { el with classList := el.classList ++ [c] }

/-- `element.classList.remove c`. -/
def classListRemove (el : DomElement) (c : String) : DomElement :=
  { el with classList := el.classList.filter (fun x => !decide (x = c)) }

/-- `element.setAttribute name val`. -/
def setAttribute (el : DomElement) (name val : String) : DomElement :=
  { el with attributes :=
      (name, val) :: el.attributes.filter (fun p => !decide (p.1 = name)) }

/-- `element.getAttribute name`. -/
def getAttribute (el : DomElement) (name : String) : Option String :=
  (el.attributes.find? (fun p => decide (p.1 = name))).map Prod.snd

/-- `element.addEventListener name ref`. -/
def addEventListener (el : DomElement) (name : String) (ref : HandlerRef) : DomElement :=
  { el with listeners := el.listeners ++ [(name, ref)] }

/-- `element.removeEventListener name ref`: removes only registrations whose
listener value is identical to `ref`. -/
def removeEventListener (el : DomElement) (name : String) (ref : HandlerRef) : DomElement :=
  { el with listeners :=
      el.listeners.filter (fun p => !(decide (p.1 = name) && decide (p.2 = ref))) }

/-- A DOM event as probed by `onDroppableElementChange`: an optional drag
payload carrying its file collection (`dataTransfer.files`), an optional
target carrying its file collection (`target.files`), and the two
suppression flags. -/
structure DomEvent where
  dataTransfer : Option (List File)
  target : Option (List File)
  defaultPrevented : Bool
  propagationStopped : Bool
  deriving DecidableEq, Repr

/-- `e.preventDefault()`. -/
def preventDefault (e : DomEvent) : DomEvent :=
  { e with defaultPrevented := true }

/-- `e.stopPropagation()`. -/
def stopPropagation (e : DomEvent) : DomEvent :=
  { e with propagationStopped := true }

/-- The fields of a `Droppable` instance.  `latestDroppedFiles` starts
undefined (`none`); `emittedDrops` is the log of payloads emitted on the
Noel `drop` event channel, newest last. -/
structure DroppableState where
  dragOverClass : String
  appendStatusClasses : Bool
  isClickable : Bool
  element : DomElement
  virtualInputElement : DomElement
  elementEventsRemover : List (String × HandlerRef)
  virtualInputElementEventsRemover : List (String × HandlerRef)
  latestDroppedFiles : Option (List File)
  emittedDrops : List (List File)
  listenersAttached : Nat
  virtualInputClicks : Nat
  deriving DecidableEq, Repr

/-- `getLatestDroppedFiles()`: the stored list if set, otherwise `[]`. -/
def getLatestDroppedFiles (st : DroppableState) : List File :=
  st.latestDroppedFiles.getD []

/-- `promptForFiles()`: clicks the hidden input (opens the native picker). -/
def promptForFiles (st : DroppableState) : DroppableState :=
  { st with virtualInputClicks := st.virtualInputClicks + 1 }

/-- `setIsClickable(b)`. -/
def setIsClickable (st : DroppableState) (b : Bool) : DroppableState :=
  { st with isClickable := b }

/-- `setAcceptsMultipleFiles(b)`: sets the hidden input's `multiple`
attribute to `b.toString()`; stores nothing else. -/
def setAcceptsMultipleFiles (st : DroppableState) (b : Bool) : DroppableState :=
  { st with virtualInputElement :=
      setAttribute st.virtualInputElement "multiple" (if b then "true" else "false") }

/-- `setAppendStatusClasses(b)`. -/
def setAppendStatusClasses (st : DroppableState) (b : Bool) : DroppableState :=
  { st with appendStatusClasses := b }

/-- `onFilesDropped(listener)`: attaches a listener to the Noel channel;
emits nothing new (replay delivers the buffered latest value). -/
def onFilesDropped (st : DroppableState) : DroppableState :=
  { st with listenersAttached := st.listenersAttached + 1 }

/-- `emitFilesWereDropped(files)`: one emission on the `drop` channel. -/
def emitFilesWereDropped (st : DroppableState) (files : List File) : DroppableState :=
  { st with emittedDrops := st.emittedDrops ++ [files] }

/-- `setLatestDrop(files)`: store, then emit. -/
def setLatestDrop (st : DroppableState) (files : List File) : DroppableState :=
  emitFilesWereDropped { st with latestDroppedFiles := some files } files

/-- `onDroppableElementChange(event)`: extract the file collection from the
drag payload if present, else from the target; `Array.from` preserves
order.  Returns the resulting state and the thrown error, if any (a throw
leaves the instance fields untouched). -/
def onDroppableElementChange (st : DroppableState) (event : DomEvent) :
    DroppableState × Option String :=
  match event.dataTransfer with
  | some files => (setLatestDrop st files, none)
  | none =>
    match event.target with
    | some files => (setLatestDrop st files, none)
    | none => (st, some "Fired event contains no files")

/-- Outcome of running one event listener: the state and event afterwards,
and the error it threw, if any. -/
structure HandlerResult where
  state : DroppableState
  event : DomEvent
  error : Option String
  deriving DecidableEq, Repr

/-- `onElementDragOver(e)`. -/
def onElementDragOver (st : DroppableState) (e : DomEvent) : HandlerResult :=
  let e := stopPropagation (preventDefault e)
  ⟨{ st with element := classListAdd st.element st.dragOverClass }, e, none⟩

/-- `onElementDragLeave(e)`. -/
def onElementDragLeave (st : DroppableState) (e : DomEvent) : HandlerResult :=
  let e := stopPropagation (preventDefault e)
  ⟨{ st with element := classListRemove st.element st.dragOverClass }, e, none⟩

/-- `onElementDrop(e)`: suppress, remove the status class, then process the
files; the class removal persists even if processing throws. -/
def onElementDrop (st : DroppableState) (e : DomEvent) : HandlerResult :=
  let e := stopPropagation (preventDefault e)
  let st := { st with element := classListRemove st.element st.dragOverClass }
  let r := onDroppableElementChange st e
  ⟨r.1, e, r.2⟩

/-- `onElementClick()`. -/
def onElementClick (st : DroppableState) (e : DomEvent) : HandlerResult :=
  ⟨if st.isClickable then promptForFiles st else st, e, none⟩

/-- `onVirtualInputElementChange(e)`. -/
def onVirtualInputElementChange (st : DroppableState) (e : DomEvent) : HandlerResult :=
  let r := onDroppableElementChange st e
  ⟨r.1, e, r.2⟩

/-- Dispatch to one of the five methods. -/
def runHandler : Handler → DroppableState → DomEvent → HandlerResult
  | .dragOver, st, e => onElementDragOver st e
  | .dragLeave, st, e => onElementDragLeave st e
  | .drop, st, e => onElementDrop st e
  | .click, st, e => onElementClick st e
  | .change, st, e => onVirtualInputElementChange st e

/-- `getElementEventsDictionary()` (Object.keys insertion order). -/
def elementEventsDictionary : List (String × Handler) :=
  [("dragover", .dragOver), ("dragleave", .dragLeave), ("drop", .drop), ("click", .click)]

/-- `getVirtualInputElementEventsDictionary()`. -/
def virtualInputElementEventsDictionary : List (String × Handler) :=
  [("change", .change)]

/-- `registerElementEventsWithDictionary`: for each entry,
`addEventListener(name, listener.bind(this))` — a fresh bound copy — while
the collected remover closes over the original `listener` and will call
`removeEventListener(name, listener)` with it. -/
def registerElementEventsWithDictionary (el : DomElement)
    (dict : List (String × Handler)) : DomElement × List (String × HandlerRef) :=
  (dict.foldl (fun e p => addEventListener e p.1 (HandlerRef.bound p.2)) el,
   dict.map (fun p => (p.1, HandlerRef.original p.2)))

/-- Running a stored remover list: `removeEventListener` for each pair. -/
def runRemovers (el : DomElement) (removers : List (String × HandlerRef)) : DomElement :=
  removers.foldl (fun e p => removeEventListener e p.1 p.2) el

/-- `cleanUp()`: run both removers. -/
def cleanUp (st : DroppableState) : DroppableState :=
  { st with
      element := runRemovers st.element st.elementEventsRemover,
      virtualInputElement :=
        runRemovers st.virtualInputElement st.virtualInputElementEventsRemover }

/-- `makeVirtualInputElement()`: `<input type="file">`, hidden. -/
def makeVirtualInputElement : DomElement :=
  { classList := [], attributes := [("type", "file")], listeners := [] }

/-- The constructor body after the `config.element` check, with the three
flags already defaulted: create the hidden input, run the three setters,
create the Noel channel (empty emission log), register both dictionaries. -/
def mkDroppable (element : DomElement)
    (isClickable acceptsMultipleFiles appendStatusClasses : Bool) : DroppableState :=
  let st0 : DroppableState :=
    { dragOverClass := "dragover"
      appendStatusClasses := false
      isClickable := false
      element := element
      virtualInputElement := makeVirtualInputElement
      elementEventsRemover := []
      virtualInputElementEventsRemover := []
      latestDroppedFiles := none
      emittedDrops := []
      listenersAttached := 0
      virtualInputClicks := 0 }
  let st1 := setIsClickable st0 isClickable
  let st2 := setAcceptsMultipleFiles st1 acceptsMultipleFiles
  let st3 := setAppendStatusClasses st2 appendStatusClasses
  let r1 := registerElementEventsWithDictionary st3.element elementEventsDictionary
  let st4 := { st3 with element := r1.1, elementEventsRemover := r1.2 }
  let r2 := registerElementEventsWithDictionary st4.virtualInputElement
      virtualInputElementEventsDictionary
  { st4 with virtualInputElement := r2.1, virtualInputElementEventsRemover := r2.2 }

/-- `DroppableSettings`: `element` required, flags optional (`none` models
an absent / non-boolean field, per the `typeof === 'boolean'` checks). -/
structure DroppableSettings where
  element : Option DomElement
  appendStatusClasses : Option Bool
  acceptsMultipleFiles : Option Bool
  isClickable : Option Bool
  deriving DecidableEq, Repr

/-- The constructor: throws when `config.element` is absent. -/
def droppableConstructor (config : DroppableSettings) : Except String DroppableState :=
  match config.element with
  | none => .error "config.element: HTMLElement is required"
  | some el =>
      .ok (mkDroppable el (config.isClickable.getD true)
        (config.acceptsMultipleFiles.getD true) (config.appendStatusClasses.getD true))

/-- Run one registered listener and keep the first error (an exception in a
listener does not stop later listeners for the same event). -/
def applyListener (acc : HandlerResult) (ref : HandlerRef) : HandlerResult :=
  let r := runHandler (handlerOf ref) acc.state acc.event
  ⟨r.state, r.event, acc.error.orElse fun _ => r.error⟩

/-- Listener values registered on an element for an event name, in order. -/
def listenersFor (el : DomElement) (name : String) : List HandlerRef :=
  (el.listeners.filter (fun p => decide (p.1 = name))).map Prod.snd

/-- A native event of the given name fired on the host element: every
listener registered for that name runs in order. -/
def dispatchToElement (st : DroppableState) (name : String) (ev : DomEvent) :
    HandlerResult :=
  (listenersFor st.element name).foldl applyListener ⟨st, ev, none⟩

/-- A native event fired on the hidden input. -/
def dispatchToInput (st : DroppableState) (name : String) (ev : DomEvent) :
    HandlerResult :=
  (listenersFor st.virtualInputElement name).foldl applyListener ⟨st, ev, none⟩

/-- The operations that can hit a live instance: native events on either
element, the public setters, subscription, picker prompt, teardown. -/
inductive Op where
  | elementEvent (name : String) (ev : DomEvent)
  | inputEvent (name : String) (ev : DomEvent)
  | setIsClickableOp (b : Bool)
  | setAcceptsMultipleFilesOp (b : Bool)
  | setAppendStatusClassesOp (b : Bool)
  | onFilesDroppedOp
  | promptForFilesOp
  | cleanUpOp
  deriving Repr

/-- One step of the instance under an operation (a thrown error propagates
to the caller but the fields keep the mutations made before the throw). -/
def step (st : DroppableState) : Op → DroppableState
  | .elementEvent name ev => (dispatchToElement st name ev).state
  | .inputEvent name ev => (dispatchToInput st name ev).state
  | .setIsClickableOp b => setIsClickable st b
  | .setAcceptsMultipleFilesOp b => setAcceptsMultipleFiles st b
  | .setAppendStatusClassesOp b => setAppendStatusClasses st b
  | .onFilesDroppedOp => onFilesDropped st
  | .promptForFilesOp => promptForFiles st
  | .cleanUpOp => cleanUp st

/-- The spec's invariant: the queried latest list equals the payload of the
most recent emission, or `[]` when nothing has been emitted. -/
def latestMatchesLastEmitted (st : DroppableState) : Prop :=
  getLatestDroppedFiles st = (st.emittedDrops.getLast?).getD []


/-! Concrete sample data used by witnesses and closed evaluations. -/

/-- A host element with no classes, attributes or preexisting listeners. -/
def sampleHostElement : DomElement := ⟨[], [], []⟩

/-- A sample file handle. -/
def sampleFile : File := ⟨0⟩

/-- A second sample file handle. -/
def sampleFile1 : File := ⟨1⟩

/-- A drop event whose drag payload carries one file. -/
def sampleDropEvent : DomEvent := ⟨some [sampleFile], none, false, false⟩

/-- A change event whose target carries one file. -/
def sampleChangeEvent : DomEvent := ⟨none, some [sampleFile1], false, false⟩

/-- An event with neither drag payload nor target. -/
def sampleEmptyEvent : DomEvent := ⟨none, none, false, false⟩

/-- A freshly constructed instance on the sample host element, all flags
defaulted. -/
def sampleInstance : DroppableState := mkDroppable sampleHostElement true true true

/-! Helper lemmas about the invariant. -/

/-- `setLatestDrop` establishes the invariant: the stored list equals the
newly appended last emission. -/
theorem setLatestDrop_inv (st : DroppableState) (files : List File) :
    latestMatchesLastEmitted (setLatestDrop st files) := by
  simp [latestMatchesLastEmitted, setLatestDrop, emitFilesWereDropped,
    getLatestDroppedFiles, List.getLast?_concat]

/-- `onDroppableElementChange` preserves the invariant on both its success
and its error path. -/
theorem onDroppableElementChange_inv (st : DroppableState) (ev : DomEvent)
    (h : latestMatchesLastEmitted st) :
    latestMatchesLastEmitted (onDroppableElementChange st ev).1 := by
  unfold onDroppableElementChange
  cases hdt : ev.dataTransfer with
  | some files => exact setLatestDrop_inv st files
  | none =>
    cases htg : ev.target with
    | some files => exact setLatestDrop_inv st files
    | none => exact h

/-- `onDroppableElementChange` never touches the host element. -/
theorem onDroppableElementChange_element (st : DroppableState) (ev : DomEvent) :
    (onDroppableElementChange st ev).1.element = st.element := by
  unfold onDroppableElementChange
  cases ev.dataTransfer with
  | some files => rfl
  | none =>
    cases ev.target with
    | some files => rfl
    | none => rfl

/-- Every one of the five listener methods preserves the invariant. -/
theorem runHandler_inv (h : Handler) (st : DroppableState) (ev : DomEvent)
    (hinv : latestMatchesLastEmitted st) :
    latestMatchesLastEmitted (runHandler h st ev).state := by
  cases h with
  | dragOver => exact hinv
  | dragLeave => exact hinv
  | drop => exact onDroppableElementChange_inv _ _ hinv
  | click =>
      by_cases hc : st.isClickable = true
      · simp only [runHandler, onElementClick, hc, if_true]
        exact hinv
      · simp only [runHandler, onElementClick, hc, if_false]
        exact hinv
  | change => exact onDroppableElementChange_inv _ _ hinv

/-- Running any sequence of registered listeners preserves the invariant. -/
theorem foldl_applyListener_inv (refs : List HandlerRef) (acc : HandlerResult)
    (h : latestMatchesLastEmitted acc.state) :
    latestMatchesLastEmitted (refs.foldl applyListener acc).state := by
  induction refs generalizing acc with
  | nil => exact h
  | cons r rs ih =>
      exact ih _ (runHandler_inv (handlerOf r) acc.state acc.event h)

/-- Every operation on a live instance preserves the invariant. -/
theorem step_inv (st : DroppableState) (op : Op)
    (h : latestMatchesLastEmitted st) :
    latestMatchesLastEmitted (step st op) := by
  cases op with
  | elementEvent name ev => exact foldl_applyListener_inv _ _ h
  | inputEvent name ev => exact foldl_applyListener_inv _ _ h
  | setIsClickableOp b => exact h
  | setAcceptsMultipleFilesOp b => exact h
  | setAppendStatusClassesOp b => exact h
  | onFilesDroppedOp => exact h
  | promptForFilesOp => exact h
  | cleanUpOp => exact h

/-- The invariant holds right after construction. -/
theorem mkDroppable_inv (el : DomElement) (c m a : Bool) :
    latestMatchesLastEmitted (mkDroppable el c m a) := rfl

/-- The invariant holds along any operation sequence. -/
theorem foldl_step_inv (ops : List Op) (st : DroppableState)
    (h : latestMatchesLastEmitted st) :
    latestMatchesLastEmitted (ops.foldl step st) := by
  induction ops generalizing st with
  | nil => exact h
  | cons op rest ih => exact ih _ (step_inv st op h)

/-! The claims. -/

/-- Claim C1: for every file list delivered through a drop event carrying a
drag payload, or through the hidden input's change event, the handler ends
with `getLatestDroppedFiles()` equal to exactly that list (same elements,
same order, no filtering) and exactly one new `files dropped` emission
carrying that list, and throws nothing. -/
theorem drop_and_change_store_and_emit_delivered_list
    (st st2 : DroppableState) (ev ev2 : DomEvent) (F F2 : List File)
    (h1 : ev.dataTransfer = some F)
    (h2 : ev2.dataTransfer = none) (h3 : ev2.target = some F2) :
    (getLatestDroppedFiles (runHandler .drop st ev).state = F
      ∧ (runHandler .drop st ev).state.emittedDrops = st.emittedDrops ++ [F]
      ∧ (runHandler .drop st ev).error = none)
    ∧ (getLatestDroppedFiles (runHandler .change st2 ev2).state = F2
      ∧ (runHandler .change st2 ev2).state.emittedDrops = st2.emittedDrops ++ [F2]
      ∧ (runHandler .change st2 ev2).error = none) := by
  refine ⟨?_, ?_⟩ <;>
    simp [runHandler, onElementDrop, onVirtualInputElementChange,
      onDroppableElementChange, stopPropagation, preventDefault,
      h1, h2, h3, setLatestDrop, emitFilesWereDropped, getLatestDroppedFiles]

/-- Claim C1, witness: a one-file drop and a one-file change on a fresh
instance. -/
theorem drop_and_change_store_and_emit_delivered_list_witness :
    (getLatestDroppedFiles (runHandler .drop sampleInstance sampleDropEvent).state = [sampleFile]
      ∧ (runHandler .drop sampleInstance sampleDropEvent).state.emittedDrops
          = sampleInstance.emittedDrops ++ [[sampleFile]]
      ∧ (runHandler .drop sampleInstance sampleDropEvent).error = none)
    ∧ (getLatestDroppedFiles (runHandler .change sampleInstance sampleChangeEvent).state = [sampleFile1]
      ∧ (runHandler .change sampleInstance sampleChangeEvent).state.emittedDrops
          = sampleInstance.emittedDrops ++ [[sampleFile1]]
      ∧ (runHandler .change sampleInstance sampleChangeEvent).error = none) :=
  drop_and_change_store_and_emit_delivered_list sampleInstance sampleInstance
    sampleDropEvent sampleChangeEvent [sampleFile] [sampleFile1] rfl rfl rfl

/-- Claim C2: at every state reachable from a successful construction by any
sequence of operations, `getLatestDroppedFiles()` equals the payload of the
most recent `files dropped` emission, or `[]` when none has occurred. -/
theorem latest_files_equal_last_emission_at_every_reachable_state
    (cfg : DroppableSettings) (st0 : DroppableState)
    (h : droppableConstructor cfg = .ok st0) (ops : List Op) :
    latestMatchesLastEmitted (ops.foldl step st0) := by
  apply foldl_step_inv
  cases hel : cfg.element with
  | none => simp [droppableConstructor, hel] at h
  | some el =>
      simp only [droppableConstructor, hel] at h
      cases h
      exact mkDroppable_inv _ _ _ _

/-- Claim C2, witness: the invariant after a drop followed by a cleanUp on a
freshly constructed instance. -/
theorem latest_files_equal_last_emission_at_every_reachable_state_witness :
    latestMatchesLastEmitted
      (([Op.elementEvent "drop" sampleDropEvent, Op.cleanUpOp]).foldl step sampleInstance) :=
  latest_files_equal_last_emission_at_every_reachable_state
    ⟨some sampleHostElement, none, none, none⟩ sampleInstance rfl _

/-- Claim C3: files are read from the drag payload's collection when a drag
payload is present, else from the target's collection when a target is
present, and the handler throws exactly when neither is present. -/
theorem file_extraction_policy (st : DroppableState) (ev : DomEvent) :
    (∀ F, ev.dataTransfer = some F →
        onDroppableElementChange st ev = (setLatestDrop st F, none))
    ∧ (∀ F, ev.dataTransfer = none → ev.target = some F →
        onDroppableElementChange st ev = (setLatestDrop st F, none))
    ∧ ((onDroppableElementChange st ev).2.isSome = true ↔
        ev.dataTransfer = none ∧ ev.target = none) := by
  refine ⟨fun F h1 => by simp [onDroppableElementChange, h1],
    fun F h1 h2 => by simp [onDroppableElementChange, h1, h2], ?_⟩
  cases h1 : ev.dataTransfer with
  | some f => simp [onDroppableElementChange, h1]
  | none =>
    cases h2 : ev.target with
    | some f => simp [onDroppableElementChange, h1, h2]
    | none => simp [onDroppableElementChange, h1, h2]

/-- Claim C3, witness: extraction from a drag payload, and a throw on an
event carrying neither source. -/
theorem file_extraction_policy_witness :
    onDroppableElementChange sampleInstance sampleDropEvent
        = (setLatestDrop sampleInstance [sampleFile], none)
    ∧ (onDroppableElementChange sampleInstance sampleEmptyEvent).2.isSome = true :=
  ⟨(file_extraction_policy sampleInstance sampleDropEvent).1 [sampleFile] rfl,
    (file_extraction_policy sampleInstance sampleEmptyEvent).2.2.mpr ⟨rfl, rfl⟩⟩

/-- Claim C4: when the drop or change path throws (event with neither drag
payload nor target), nothing is emitted and `getLatestDroppedFiles()` is
unchanged. -/
theorem failed_event_emits_nothing_and_keeps_latest
    (st : DroppableState) (ev : DomEvent)
    (h1 : ev.dataTransfer = none) (h2 : ev.target = none) :
    ((runHandler .drop st ev).error.isSome = true
      ∧ getLatestDroppedFiles (runHandler .drop st ev).state = getLatestDroppedFiles st
      ∧ (runHandler .drop st ev).state.emittedDrops = st.emittedDrops)
    ∧ ((runHandler .change st ev).error.isSome = true
      ∧ getLatestDroppedFiles (runHandler .change st ev).state = getLatestDroppedFiles st
      ∧ (runHandler .change st ev).state.emittedDrops = st.emittedDrops) := by
  refine ⟨?_, ?_⟩ <;>
    simp [runHandler, onElementDrop, onVirtualInputElementChange,
      onDroppableElementChange, stopPropagation, preventDefault, h1, h2,
      getLatestDroppedFiles]

/-- Claim C4, witness: the empty event on a fresh instance. -/
theorem failed_event_emits_nothing_and_keeps_latest_witness :
    ((runHandler .drop sampleInstance sampleEmptyEvent).error.isSome = true
      ∧ getLatestDroppedFiles (runHandler .drop sampleInstance sampleEmptyEvent).state
          = getLatestDroppedFiles sampleInstance
      ∧ (runHandler .drop sampleInstance sampleEmptyEvent).state.emittedDrops
          = sampleInstance.emittedDrops)
    ∧ ((runHandler .change sampleInstance sampleEmptyEvent).error.isSome = true
      ∧ getLatestDroppedFiles (runHandler .change sampleInstance sampleEmptyEvent).state
          = getLatestDroppedFiles sampleInstance
      ∧ (runHandler .change sampleInstance sampleEmptyEvent).state.emittedDrops
          = sampleInstance.emittedDrops) :=
  failed_event_emits_nothing_and_keeps_latest sampleInstance sampleEmptyEvent rfl rfl

/-- Claim C5, counter-evidence (the code contradicts the claim):
`addEventListener` was given the fresh function object produced by
`listener.bind(this)`, while the stored remover calls `removeEventListener`
with the original unbound `listener`; since the two are distinct function
values, `cleanUp()` removes nothing at all — on a freshly constructed
instance it is the identity — and a drop on the host element or a change on
the hidden input after `cleanUp()` still emits a `files dropped`
notification. -/
theorem cleanUp_is_noop_and_events_still_emit :
    cleanUp sampleInstance = sampleInstance
    ∧ (dispatchToElement (cleanUp sampleInstance) "drop" sampleDropEvent).state.emittedDrops
        = [[sampleFile]]
    ∧ (dispatchToInput (cleanUp sampleInstance) "change" sampleChangeEvent).state.emittedDrops
        = [[sampleFile1]] :=
  ⟨rfl, rfl, rfl⟩

/-- Claim C6: dragover adds the status marker class, dragleave removes it,
drop removes it and does not re-add it, and each of the three handlers sets
both suppression flags on the event. -/
theorem drag_status_class_toggle_and_suppression (st : DroppableState) (e : DomEvent) :
    (st.dragOverClass ∈ (onElementDragOver st e).state.element.classList
      ∧ (onElementDragOver st e).event.defaultPrevented = true
      ∧ (onElementDragOver st e).event.propagationStopped = true)
    ∧ (st.dragOverClass ∉ (onElementDragLeave st e).state.element.classList
      ∧ (onElementDragLeave st e).event.defaultPrevented = true
      ∧ (onElementDragLeave st e).event.propagationStopped = true)
    ∧ (st.dragOverClass ∉ (onElementDrop st e).state.element.classList
      ∧ (onElementDrop st e).event.defaultPrevented = true
      ∧ (onElementDrop st e).event.propagationStopped = true) := by
  obtain ⟨dt, tg, dp, ps⟩ := e
  have hadd : st.dragOverClass ∈ (classListAdd st.element st.dragOverClass).classList := by
    by_cases h : st.dragOverClass ∈ st.element.classList
    · simp [classListAdd, h]
    · simp [classListAdd, h]
  have hrem : st.dragOverClass ∉ (classListRemove st.element st.dragOverClass).classList := by
    simp [classListRemove, List.mem_filter]
  cases dt <;> cases tg <;>
    exact ⟨⟨hadd, rfl, rfl⟩, ⟨hrem, rfl, rfl⟩, ⟨hrem, rfl, rfl⟩⟩

/-- Claim C7: on an instance constructed with `acceptsMultipleFiles = false`,
a drop whose drag payload carries three files still stores and emits all
three, in order — the flag never truncates the processed list. -/
theorem acceptsMultipleFiles_false_does_not_truncate (el : DomElement) (a b c : File) :
    getLatestDroppedFiles (runHandler .drop (mkDroppable el true false true)
        ⟨some [a, b, c], none, false, false⟩).state = [a, b, c]
    ∧ (runHandler .drop (mkDroppable el true false true)
        ⟨some [a, b, c], none, false, false⟩).state.emittedDrops = [[a, b, c]] :=
  ⟨rfl, rfl⟩

/-- Claim C8: construction with an absent host element reference fails with
the configuration error, so no instance is produced. -/
theorem constructor_requires_element (cfg : DroppableSettings)
    (h : cfg.element = none) :
    droppableConstructor cfg = .error "config.element: HTMLElement is required" := by
  simp [droppableConstructor, h]

/-- Claim C8, witness: the empty configuration. -/
theorem constructor_requires_element_witness :
    droppableConstructor ⟨none, none, none, none⟩
      = .error "config.element: HTMLElement is required" :=
  constructor_requires_element ⟨none, none, none, none⟩ rfl

/-- Claim C9: a configuration carrying only a host element yields an
instance with `isClickable = true`, `appendStatusClasses = true`, the hidden
input's `multiple` attribute set to `"true"` (the only place the
multiple-files flag lives), and an empty `getLatestDroppedFiles()`. -/
theorem default_configuration_flags (el : DomElement) :
    ∃ st, droppableConstructor ⟨some el, none, none, none⟩ = .ok st
      ∧ st.isClickable = true
      ∧ st.appendStatusClasses = true
      ∧ getAttribute st.virtualInputElement "multiple" = some "true"
      ∧ getLatestDroppedFiles st = [] :=
  ⟨mkDroppable el true true true, rfl, rfl, rfl, rfl, rfl⟩

/-- Claim C10: `setAcceptsMultipleFiles(b)` sets the hidden input's
`multiple` attribute to the string form of `b` — for `b = false` the
attribute stays present with value `"false"` — and changes nothing else:
every other instance field is untouched (the record has no boolean
multiple-files field at all), and the hidden input changes only in its
attributes. -/
theorem setAcceptsMultipleFiles_sets_attribute_only (st : DroppableState) (b : Bool) :
    getAttribute (setAcceptsMultipleFiles st b).virtualInputElement "multiple"
        = some (if b then "true" else "false")
    ∧ getAttribute (setAcceptsMultipleFiles st false).virtualInputElement "multiple"
        = some "false"
    ∧ (setAcceptsMultipleFiles st b).isClickable = st.isClickable
    ∧ (setAcceptsMultipleFiles st b).appendStatusClasses = st.appendStatusClasses
    ∧ (setAcceptsMultipleFiles st b).latestDroppedFiles = st.latestDroppedFiles
    ∧ (setAcceptsMultipleFiles st b).emittedDrops = st.emittedDrops
    ∧ (setAcceptsMultipleFiles st b).element = st.element
    ∧ (setAcceptsMultipleFiles st b).virtualInputElement.listeners
        = st.virtualInputElement.listeners
    ∧ (setAcceptsMultipleFiles st b).virtualInputElement.classList
        = st.virtualInputElement.classList := by
  refine ⟨?_, rfl, rfl, rfl, rfl, rfl, rfl, rfl, rfl⟩
  cases b <;> rfl

end DroppableSpec
